import Mathlib

/-!
Shallow embedding of `src/backend/main.py` (Resumia backend, FastAPI service).

Python strings are modelled as `List Char` (a Python `str` is a sequence of
code points). Raw upload bytes are `List Nat` (each entry < 256 at use sites).
The two abstract external collaborators are parameters:
  * `extractor` models `pdfminer.high_level.extract_text` — bytes to text, or
    an arbitrary (non-HTTPException) failure;
  * `gen` models `model.generate_content` — per attempt, either a failure
    (any exception) or a success carrying the response text.
`HTTPException(status, detail)` becomes the `HTTPError` structure; raising it
becomes an `Except.error`.  Side effects relevant to the claims (invoking
extraction, invoking the model with a given prompt, `time.sleep`) are recorded
as an explicit event trace returned alongside the result.
-/

namespace Resumia

/-- Embedding of `fastapi.HTTPException(status_code, detail)` as raised by `main.py`. -/
structure HTTPError where
  status : Nat
  detail : List Char
deriving DecidableEq, Repr

/-- The error `HTTPException(400, detail="Invalid file type. Only PDF, DOC, DOCX, and TXT are allowed")`, main.py line 74. -/
def invalidFileType : HTTPError :=
  ⟨400, "Invalid file type. Only PDF, DOC, DOCX, and TXT are allowed".data⟩

/-- The error `HTTPException(400, detail="Empty file received")`, main.py line 78. -/
def emptyFile : HTTPError := ⟨400, "Empty file received".data⟩

/-- The error `HTTPException(400, detail="File size exceeds 5MB limit")`, main.py line 81. -/
def fileTooLarge : HTTPError := ⟨400, "File size exceeds 5MB limit".data⟩

/-- The error `HTTPException(500, detail="AI Service unavailable after multiple attempts")`, main.py line 66. -/
def serviceUnavailable : HTTPError :=
  ⟨500, "AI Service unavailable after multiple attempts".data⟩

/-- The error `HTTPException(500, detail="Internal server error")`, main.py line 99:
the catch-all for any non-HTTPException escaping the endpoint body. -/
def internalError : HTTPError := ⟨500, "Internal server error".data⟩

/-- Observable side effects of one request, in order of occurrence:
the text-extraction step (line 84), one `model.generate_content` call with
the exact prompt string passed to it (line 56), and one `time.sleep` with its
duration in seconds (line 65). -/
inductive Event where
  | extract
  | modelCall (prompt : List Char)
  | sleep (seconds : Nat)
deriving DecidableEq, Repr

/-- Outcome of a single `model.generate_content` attempt: any exception, or a
response whose `.text` is the given string. -/
inductive Outcome where
  | failure
  | success (responseText : List Char)
deriving DecidableEq, Repr

/-- The success body `{"data": response.text}` of main.py line 92. -/
structure Envelope where
  data : List Char
deriving DecidableEq, Repr

/-- The `UploadFile` received by `analyze_resume`: a filename plus the byte
sequence returned by `await file.read()` (main.py line 76). -/
structure UploadFile where
  filename : List Char
  contents : List Nat
deriving DecidableEq, Repr

/-- Python `str.lower()` on the code points of a Python string.  The extensions being
compared are pure ASCII, for which `Char.toLower` agrees with Python. -/
def lowerStr (s : List Char) : List Char := s.map Char.toLower

/-- The check `file.filename.lower().endswith(('.pdf', '.doc', '.docx', '.txt'))`,
main.py line 73: `endswith` with a tuple is true when any listed suffix
matches. -/
def hasAllowedExtension (filename : List Char) : Bool :=
  [".pdf", ".doc", ".docx", ".txt"].any (fun ext => ext.data.isSuffixOf (lowerStr filename))

/-- The test `file.filename.lower().endswith('.pdf')`, main.py line 84: selects the PDF
extraction path. -/
def isPdf (filename : List Char) : Bool := ".pdf".data.isSuffixOf (lowerStr filename)

/-- The limit `5 * 1024 * 1024`, the byte bound of main.py line 80. -/
def MAX_SIZE : Nat := 5 * 1024 * 1024

/-- The constant `MODEL_NAME = "gemini-1.5-flash"`, main.py line 51. -/
def MODEL_NAME : List Char := "gemini-1.5-flash".data

/-- The fixed instructional text of the f-string prompt of main.py line 57,
with Python's doubled braces rendered as the literal braces they produce;
`text[:45000]` is appended after it. -/
def PROMPT_TEMPLATE : List Char :=
  ("You are an expert Resume Analyzer AI. Your task is to meticulously analyze the provided resume text and return ONLY a valid JSON object, adhering strictly to the specified format and constraints. Do not include any introductory text, explanations, or markdown formatting around the JSON output.**Analysis Context & Criteria:: \x7b\"score\": 0-100, \"summary\": \"5 bullet points max\", \"top_skills\": [\"skill1\", \"skill2\", \"skill3\"], \"improvements\": [\"actionable_item1\", \"actionable_item2\", \"actionable_item3\", \"actionable_item4\", \"actionable_item5\"]\x7d Resume: ").data

/-- The full prompt string passed to `model.generate_content` (main.py
line 57): the fixed template followed by `text[:45000]`, the first 45,000
code points of the extracted text. -/
def buildPrompt (text : List Char) : List Char :=
  PROMPT_TEMPLATE ++ text.take 45000

/-- The loop body of `retry_gemini_request` (main.py lines 54-66): `remaining`
counts loop iterations still available, `attempt` is the current value of the
Python loop variable.  On success the response is returned at once; on failure
the error is logged and `time.sleep(2 ** attempt)` runs — including after the
final attempt — before the loop continues; an exhausted loop raises
`HTTPException(500, "AI Service unavailable after multiple attempts")`. -/
def retryLoop (gen : Nat → Outcome) (text : List Char) :
    Nat → Nat → List Event × Except HTTPError (List Char)
  | 0, _ => ([], .error serviceUnavailable)
  | remaining + 1, attempt =>
    match gen attempt with
    | .success r => ([.modelCall (buildPrompt text)], .ok r)
    | .failure =>
      let rest := retryLoop gen text remaining (attempt + 1)
      (.modelCall (buildPrompt text) :: .sleep (2 ^ attempt) :: rest.1, rest.2)

/-- The function `retry_gemini_request(model, text, retries)` (main.py lines 53-66), the
model handle replaced by the abstract per-attempt outcome function `gen`. -/
def retry_gemini_request (gen : Nat → Outcome) (text : List Char) (retries : Nat) :
    List Event × Except HTTPError (List Char) :=
  retryLoop gen text retries 0

/-- One pass of strict UTF-8 decoding, mirroring Python's
`bytes.decode('utf-8')` (main.py line 84): rejects stray continuation bytes,
overlong encodings, UTF-16 surrogates and code points above U+10FFFF.  Each
step consumes at least one byte, so `fuel` bounds the recursion; callers pass
the length of the byte sequence, which is always sufficient. -/
def decodeLoop : Nat → List Nat → Option (List Char)
  | _, [] => some []
  | 0, _ :: _ => none
  | fuel + 1, b0 :: rest =>
    if b0 < 0x80 then
      (decodeLoop fuel rest).map (fun s => Char.ofNat b0 :: s)
    else if b0 < 0xC2 then
      none
    else if b0 < 0xE0 then
      match rest with
      | b1 :: rest1 =>
        if 0x80 ≤ b1 ∧ b1 < 0xC0 then
          (decodeLoop fuel rest1).map
            (fun s => Char.ofNat ((b0 - 0xC0) * 64 + (b1 - 0x80)) :: s)
        else none
      | [] => none
    else if b0 < 0xF0 then
      match rest with
      | b1 :: b2 :: rest2 =>
        if (if b0 = 0xE0 then 0xA0 ≤ b1 ∧ b1 < 0xC0
            else if b0 = 0xED then 0x80 ≤ b1 ∧ b1 < 0xA0
            else 0x80 ≤ b1 ∧ b1 < 0xC0) ∧ 0x80 ≤ b2 ∧ b2 < 0xC0 then
          (decodeLoop fuel rest2).map
            (fun s => Char.ofNat ((b0 - 0xE0) * 4096 + (b1 - 0x80) * 64 + (b2 - 0x80)) :: s)
        else none
      | _ => none
    else if b0 < 0xF5 then
      match rest with
      | b1 :: b2 :: b3 :: rest3 =>
        if (if b0 = 0xF0 then 0x90 ≤ b1 ∧ b1 < 0xC0
            else if b0 = 0xF4 then 0x80 ≤ b1 ∧ b1 < 0x90
            else 0x80 ≤ b1 ∧ b1 < 0xC0) ∧ (0x80 ≤ b2 ∧ b2 < 0xC0) ∧ 0x80 ≤ b3 ∧ b3 < 0xC0 then
          (decodeLoop fuel rest3).map
            (fun s => Char.ofNat ((b0 - 0xF0) * 262144 + (b1 - 0x80) * 4096 + (b2 - 0x80) * 64 + (b3 - 0x80)) :: s)
        else none
      | _ => none
    else none

/-- Python `contents.decode('utf-8')` (main.py line 84) as a total function: `none`
models the `UnicodeDecodeError` Python raises on invalid input, which is not
an `HTTPException`. -/
def decodeUtf8 (bytes : List Nat) : Option (List Char) :=
  decodeLoop bytes.length bytes

/-- Main.py line 84: `extract_text(io.BytesIO(contents)) if
file.filename.lower().endswith('.pdf') else contents.decode('utf-8')`.
A failure of either (pdfminer exception, `UnicodeDecodeError`) is not an
`HTTPException`, so it is caught by the final handler of lines 97-99 and
surfaces as `HTTPException(500, "Internal server error")`. -/
def extractStep (extractor : List Nat → Except Unit (List Char)) (file : UploadFile) :
    Except HTTPError (List Char) :=
  if isPdf file.filename then
    match extractor file.contents with
    | .ok t => .ok t
    | .error _ => .error internalError
  else
    match decodeUtf8 file.contents with
    | some t => .ok t
    | none => .error internalError

/-- The `POST /api/analyze` handler `analyze_resume` (main.py lines 68-99),
parameterised by the two abstract collaborators.  Returns the trace of observable
effects together with either the success envelope or the `HTTPException`
surfaced to the caller (validation failures re-raised verbatim by line 96,
other exceptions mapped to the generic 500 by lines 97-99). -/
def analyze_resume (extractor : List Nat → Except Unit (List Char))
    (gen : Nat → Outcome) (file : UploadFile) :
    List Event × Except HTTPError Envelope :=
  if !hasAllowedExtension file.filename then ([], .error invalidFileType)
  else if file.contents.length = 0 then ([], .error emptyFile)
  else if file.contents.length > MAX_SIZE then ([], .error fileTooLarge)
  else
    match extractStep extractor file with
    | .error e => ([.extract], .error e)
    | .ok text =>
      let run := retry_gemini_request gen text 3
      (.extract :: run.1, run.2.map (fun r => ⟨r⟩))

/-- Python truthiness of `os.getenv("GEMINI_API_KEY")`: `None` and the empty
string are falsy, every other string is truthy. -/
def keyTruthy : Option (List Char) → Bool
  | none => false
  | some s => !s.isEmpty

/-- Module-level startup of main.py lines 37-40: `if not GEMINI_API_KEY:
raise RuntimeError("API key not configured")`.  On success the process runs
with the given credential value. -/
def startup (gemini_api_key : Option (List Char)) :
    Except (List Char) (Option (List Char)) :=
  if keyTruthy gemini_api_key then .ok gemini_api_key
  else .error "API key not configured".data

/-- The fields of the `GET /health` response that are functions of program
state (main.py lines 106-109); the `memory` and `cpu_usage_percent` fields
sample the host via psutil and are outside the embedding. -/
structure HealthReport where
  status : List Char
  model : List Char
  api_ready : Bool
deriving DecidableEq, Repr

/-- The `health_check` handler (main.py lines 101-116) restricted to its
state-dependent fields; `api_ready` is `bool(GEMINI_API_KEY)`. -/
def health_check (gemini_api_key : Option (List Char)) : HealthReport :=
  { status := "healthy".data
    model := MODEL_NAME
    api_ready := keyTruthy gemini_api_key }

/-- Total seconds spent in `time.sleep` calls across a trace. -/
def totalSleep : List Event → Nat
  | [] => 0
  | .sleep s :: rest => s + totalSleep rest
  | _ :: rest => totalSleep rest

/-! ### Helper lemmas -/

/-- Truncation is idempotent inside the prompt: the prompt built from the
truncated text equals the prompt built from the full text. -/
theorem buildPrompt_take (text : List Char) :
    buildPrompt (text.take 45000) = buildPrompt text := by
  simp [buildPrompt, List.take_take]

/-- When the first three attempts all fail, the three-attempt retry traces
exactly three model calls interleaved with sleeps of 1, 2 and 4 seconds and
raises `serviceUnavailable`. -/
theorem retry3_allFail (gen : Nat → Outcome) (text : List Char)
    (h0 : gen 0 = .failure) (h1 : gen 1 = .failure) (h2 : gen 2 = .failure) :
    retry_gemini_request gen text 3 =
      ([.modelCall (buildPrompt text), .sleep 1, .modelCall (buildPrompt text), .sleep 2,
        .modelCall (buildPrompt text), .sleep 4], .error serviceUnavailable) := by
  simp [retry_gemini_request, retryLoop, h0, h1, h2]

/-- When the first two attempts fail and the third succeeds, the retry returns
the third response after exactly three model calls and sleeps of 1 and 2
seconds. -/
theorem retry3_thirdSuccess (gen : Nat → Outcome) (text : List Char) (r : List Char)
    (h0 : gen 0 = .failure) (h1 : gen 1 = .failure) (h2 : gen 2 = .success r) :
    retry_gemini_request gen text 3 =
      ([.modelCall (buildPrompt text), .sleep 1, .modelCall (buildPrompt text), .sleep 2,
        .modelCall (buildPrompt text)], .ok r) := by
  simp [retry_gemini_request, retryLoop, h0, h1, h2]

/-- Every model call recorded by the retry loop carries the one prompt built
from the extracted text. -/
theorem retryLoop_modelCall_mem (gen : Nat → Outcome) (text : List Char) :
    ∀ n a p, Event.modelCall p ∈ (retryLoop gen text n a).1 → p = buildPrompt text := by
  intro n
  induction n with
  | zero => intro a p h; simp [retryLoop] at h
  | succ k ih =>
    intro a p h
    rw [retryLoop] at h
    cases hg : gen a with
    | success r => rw [hg] at h; simp at h; exact h
    | failure =>
      rw [hg] at h
      simp at h
      rcases h with h | h
      · exact h
      · exact ih (a + 1) p h

/-- A successful retry's trace ends with the successful model call: the final
recorded event is a model call, never a sleep. -/
theorem retryLoop_ok_ends_modelCall (gen : Nat → Outcome) (text : List Char) :
    ∀ n a r, (retryLoop gen text n a).2 = .ok r →
      ∃ l, (retryLoop gen text n a).1 = l ++ [.modelCall (buildPrompt text)] := by
  intro n
  induction n with
  | zero => intro a r h; simp [retryLoop] at h
  | succ k ih =>
    intro a r h
    cases hg : gen a with
    | success s =>
      simp [retryLoop, hg] at h ⊢
    | failure =>
      simp only [retryLoop, hg] at h ⊢
      obtain ⟨l, hl⟩ := ih (a + 1) r h
      exact ⟨.modelCall (buildPrompt text) :: .sleep (2 ^ a) :: l, by simp [hl]⟩

/-- The only error the retry loop ever raises is `serviceUnavailable`. -/
theorem retryLoop_error_eq (gen : Nat → Outcome) (text : List Char) :
    ∀ n a e, (retryLoop gen text n a).2 = .error e → e = serviceUnavailable := by
  intro n
  induction n with
  | zero => intro a e h; simp [retryLoop] at h; exact h.symm
  | succ k ih =>
    intro a e h
    rw [retryLoop] at h
    cases hg : gen a with
    | success s => rw [hg] at h; simp at h
    | failure => rw [hg] at h; exact ih (a + 1) e h

/-- Once validation and extraction pass, the endpoint is the retry call with
an `extract` event in front, the success value wrapped in the envelope. -/
theorem analyze_valid (extractor : List Nat → Except Unit (List Char))
    (gen : Nat → Outcome) (file : UploadFile) (text : List Char)
    (hext : hasAllowedExtension file.filename = true)
    (hne : file.contents.length ≠ 0)
    (hsz : ¬ file.contents.length > MAX_SIZE)
    (hstep : extractStep extractor file = .ok text) :
    analyze_resume extractor gen file =
      (.extract :: (retry_gemini_request gen text 3).1,
        (retry_gemini_request gen text 3).2.map (fun r => ⟨r⟩)) := by
  simp [analyze_resume, hext, hne, hsz, hstep]

/-- One decoding step on a non-empty byte sequence, when it succeeds, always
produces at least one character. -/
theorem decodeLoop_ne_nil (fuel b : Nat) (bs : List Nat) (s : List Char)
    (h : decodeLoop fuel (b :: bs) = some s) : s ≠ [] := by
  cases fuel with
  | zero => simp [decodeLoop] at h
  | succ k =>
    simp only [decodeLoop] at h
    repeat' split at h
    all_goals simp_all [Option.map_eq_some']
    all_goals (obtain ⟨t, -, rfl⟩ := h; simp)

/-- Successfully decoding non-empty bytes yields non-empty text. -/
theorem decodeUtf8_ne_nil (bs : List Nat) (s : List Char)
    (hne : bs ≠ []) (h : decodeUtf8 bs = some s) : s ≠ [] := by
  cases bs with
  | nil => exact absurd rfl hne
  | cons b rest => exact decodeLoop_ne_nil _ b rest s h

/-- The only error the extraction step produces is the generic 500: both a
pdfminer failure and a `UnicodeDecodeError` escape as non-HTTPExceptions and
are mapped by the catch-all handler. -/
theorem extractStep_error_eq (extractor : List Nat → Except Unit (List Char))
    (file : UploadFile) (e : HTTPError)
    (h : extractStep extractor file = .error e) : e = internalError := by
  unfold extractStep at h
  split at h <;> split at h <;> simp_all

/-! ### Claims -/

/-- Claim C1, counterexample: a `.txt` upload whose single byte 0xFF is not
valid UTF-8 does not produce a 400-class DecodeError; the `UnicodeDecodeError`
falls into the catch-all handler and the endpoint fails with the generic
`HTTPException(500, "Internal server error")`. -/
theorem invalid_utf8_txt_yields_500_counterexample :
    analyze_resume (fun _ => .error ()) (fun _ => .failure) ⟨"resume.txt".data, [255]⟩ =
      ([.extract], .error internalError) ∧
    internalError.status = 500 ∧ internalError.detail = "Internal server error".data :=
  ⟨rfl, rfl, rfl⟩

/-- Claim C1 (amended): for an upload with an allowed extension that passes
the size checks, a failed PDF extraction or a failed UTF-8 decode makes the
analyze endpoint fail with the generic `InternalError` carrying HTTP status
500 — not a 400-class error, since neither failure raises an
`HTTPException` and both are remapped by the catch-all handler. -/
theorem decode_or_extraction_failure_internal_error
    (extractor : List Nat → Except Unit (List Char)) (gen : Nat → Outcome) (file : UploadFile)
    (hext : hasAllowedExtension file.filename = true)
    (hne : file.contents.length ≠ 0)
    (hsz : ¬ file.contents.length > MAX_SIZE)
    (hfail : (isPdf file.filename = true ∧ extractor file.contents = .error ()) ∨
             (isPdf file.filename = false ∧ decodeUtf8 file.contents = none)) :
    analyze_resume extractor gen file = ([.extract], .error internalError) ∧
    internalError.status = 500 := by
  have hstep : extractStep extractor file = .error internalError := by
    rcases hfail with ⟨hp, hx⟩ | ⟨hp, hx⟩ <;> simp [extractStep, hp, hx]
  refine ⟨?_, rfl⟩
  simp [analyze_resume, hext, hne, hsz, hstep]

/-- Witness for C1 (amended) at a concrete PDF upload whose extraction
fails. -/
theorem decode_or_extraction_failure_internal_error_witness :
    analyze_resume (fun _ => .error ()) (fun _ => .failure) ⟨"cv.pdf".data, [37]⟩ =
      ([.extract], .error internalError) ∧
    internalError.status = 500 :=
  decode_or_extraction_failure_internal_error (fun _ => .error ()) (fun _ => .failure)
    ⟨"cv.pdf".data, [37]⟩ (by decide) (by decide) (by decide) (Or.inl ⟨by decide, rfl⟩)

/-- Claim C2, counterexample: a zero-byte upload named `resume.exe` does not
fail with `EmptyFile` — the extension check runs first, so the endpoint fails
with `InvalidFileType`; "regardless of extension" does not hold. -/
theorem empty_upload_disallowed_ext_counterexample :
    analyze_resume (fun _ => .error ()) (fun _ => .failure) ⟨"resume.exe".data, []⟩ =
      ([], .error invalidFileType) ∧ invalidFileType ≠ emptyFile :=
  ⟨rfl, by decide⟩

/-- Claim C2 (amended): for every upload with an *allowed* extension whose
byte length is zero, the analyze endpoint fails with `EmptyFile`; uploads with
a disallowed extension hit the extension check first. -/
theorem empty_upload_allowed_ext_emptyFile
    (extractor : List Nat → Except Unit (List Char)) (gen : Nat → Outcome) (file : UploadFile)
    (hext : hasAllowedExtension file.filename = true)
    (hlen : file.contents.length = 0) :
    analyze_resume extractor gen file = ([], .error emptyFile) := by
  simp [analyze_resume, hext, hlen]

/-- Witness for C2 (amended) at a concrete empty `.txt` upload. -/
theorem empty_upload_allowed_ext_emptyFile_witness :
    analyze_resume (fun _ => .error ()) (fun _ => .failure) ⟨"resume.txt".data, []⟩ =
      ([], .error emptyFile) :=
  empty_upload_allowed_ext_emptyFile (fun _ => .error ()) (fun _ => .failure)
    ⟨"resume.txt".data, []⟩ (by decide) (by decide)

/-- Claim C3: when every model-call attempt fails, the analyze endpoint fails
with `ServiceUnavailable` and the accumulated backoff sleep is at least 3
seconds (it is in fact 7: 1s + 2s + 4s). -/
theorem all_attempts_fail_serviceUnavailable_min_backoff
    (extractor : List Nat → Except Unit (List Char)) (gen : Nat → Outcome)
    (file : UploadFile) (text : List Char)
    (hext : hasAllowedExtension file.filename = true)
    (hne : file.contents.length ≠ 0)
    (hsz : ¬ file.contents.length > MAX_SIZE)
    (hstep : extractStep extractor file = .ok text)
    (hfail : ∀ i, i < 3 → gen i = .failure) :
    (analyze_resume extractor gen file).2 = .error serviceUnavailable ∧
    3 ≤ totalSleep (analyze_resume extractor gen file).1 := by
  have h3 := retry3_allFail gen text (hfail 0 (by norm_num)) (hfail 1 (by norm_num))
    (hfail 2 (by norm_num))
  rw [analyze_valid extractor gen file text hext hne hsz hstep, h3]
  exact ⟨rfl, by simp [totalSleep]⟩

/-- Witness for C3 at a concrete `.txt` upload with an always-failing
model. -/
theorem all_attempts_fail_serviceUnavailable_min_backoff_witness :
    (analyze_resume (fun _ => .error ()) (fun _ => .failure) ⟨"a.txt".data, [104, 105]⟩).2 =
      .error serviceUnavailable ∧
    3 ≤ totalSleep
      (analyze_resume (fun _ => .error ()) (fun _ => .failure) ⟨"a.txt".data, [104, 105]⟩).1 :=
  all_attempts_fail_serviceUnavailable_min_backoff (fun _ => .error ()) (fun _ => .failure)
    ⟨"a.txt".data, [104, 105]⟩ ['h', 'i'] (by decide) (by decide) (by decide) rfl
    (fun _ _ => rfl)

/-- Claim C4: when the first two attempts fail and the third succeeds, the
endpoint returns the success envelope holding exactly the third attempt's
output; the trace shows exactly three model calls (no attempt after the
success) and the two failures are not surfaced in the result. -/
theorem third_attempt_success_envelope
    (extractor : List Nat → Except Unit (List Char)) (gen : Nat → Outcome)
    (file : UploadFile) (text r : List Char)
    (hext : hasAllowedExtension file.filename = true)
    (hne : file.contents.length ≠ 0)
    (hsz : ¬ file.contents.length > MAX_SIZE)
    (hstep : extractStep extractor file = .ok text)
    (h0 : gen 0 = .failure) (h1 : gen 1 = .failure) (h2 : gen 2 = .success r) :
    analyze_resume extractor gen file =
      ([.extract, .modelCall (buildPrompt text), .sleep 1, .modelCall (buildPrompt text),
        .sleep 2, .modelCall (buildPrompt text)], .ok ⟨r⟩) := by
  rw [analyze_valid extractor gen file text hext hne hsz hstep,
    retry3_thirdSuccess gen text r h0 h1 h2]
  rfl

/-- Witness for C4 at a concrete `.txt` upload and a model succeeding only on
its third attempt. -/
theorem third_attempt_success_envelope_witness :
    analyze_resume (fun _ => .error ())
        (fun i => if i = 2 then .success "out".data else .failure)
        ⟨"a.txt".data, [104, 105]⟩ =
      ([.extract, .modelCall (buildPrompt ['h', 'i']), .sleep 1,
        .modelCall (buildPrompt ['h', 'i']), .sleep 2, .modelCall (buildPrompt ['h', 'i'])],
        .ok ⟨"out".data⟩) :=
  third_attempt_success_envelope (fun _ => .error ())
    (fun i => if i = 2 then .success "out".data else .failure)
    ⟨"a.txt".data, [104, 105]⟩ ['h', 'i'] "out".data
    (by decide) (by decide) (by decide) rfl rfl rfl rfl

/-- Claim C5: every prompt recorded by any model invocation of the retry loop
equals the prompt built from only the first 45,000 characters of the
extracted text — characters beyond that bound never reach the model on any
attempt. -/
theorem prompt_truncated_to_45000 (gen : Nat → Outcome) (text p : List Char)
    (h : Event.modelCall p ∈ (retry_gemini_request gen text 3).1) :
    p = buildPrompt (text.take 45000) := by
  rw [retryLoop_modelCall_mem gen text 3 0 p h, buildPrompt_take]

/-- Witness for C5 at a concrete text and an immediately succeeding model. -/
theorem prompt_truncated_to_45000_witness :
    buildPrompt "hi".data = buildPrompt ("hi".data.take 45000) :=
  prompt_truncated_to_45000 (fun _ => .success "ok".data) "hi".data
    (buildPrompt "hi".data) (by simp [retry_gemini_request, retryLoop])

/-- Claim C6: an upload whose lowercased filename matches none of the allowed
suffixes fails with `InvalidFileType`, and the event trace is empty: neither
the text-extraction step nor the model is ever invoked. -/
theorem disallowed_extension_no_extraction_no_model
    (extractor : List Nat → Except Unit (List Char)) (gen : Nat → Outcome) (file : UploadFile)
    (h : hasAllowedExtension file.filename = false) :
    (analyze_resume extractor gen file).2 = .error invalidFileType ∧
    Event.extract ∉ (analyze_resume extractor gen file).1 ∧
    ∀ p, Event.modelCall p ∉ (analyze_resume extractor gen file).1 := by
  have he : analyze_resume extractor gen file = ([], .error invalidFileType) := by
    simp [analyze_resume, h]
  rw [he]
  exact ⟨rfl, by simp, fun p => by simp⟩

/-- Witness for C6 at a concrete non-empty `.exe` upload. -/
theorem disallowed_extension_no_extraction_no_model_witness :
    (analyze_resume (fun _ => .error ()) (fun _ => .failure)
        ⟨"resume.exe".data, [1, 2, 3]⟩).2 = .error invalidFileType ∧
    Event.extract ∉ (analyze_resume (fun _ => .error ()) (fun _ => .failure)
        ⟨"resume.exe".data, [1, 2, 3]⟩).1 ∧
    ∀ p, Event.modelCall p ∉ (analyze_resume (fun _ => .error ()) (fun _ => .failure)
        ⟨"resume.exe".data, [1, 2, 3]⟩).1 :=
  disallowed_extension_no_extraction_no_model (fun _ => .error ()) (fun _ => .failure)
    ⟨"resume.exe".data, [1, 2, 3]⟩ (by decide)

/-- Claim C7: the size limit is 5 × 1024 × 1024 = 5,242,880 bytes; an upload
of exactly that many bytes passes the size check while any strictly larger
upload fails with `FileTooLarge`, and the checks run in order — extension
first, then emptiness, then size — with the first failure winning. -/
theorem size_check_boundary_and_order
    (extractor : List Nat → Except Unit (List Char)) (gen : Nat → Outcome) (file : UploadFile) :
    MAX_SIZE = 5242880 ∧
    (hasAllowedExtension file.filename = false →
      analyze_resume extractor gen file = ([], .error invalidFileType)) ∧
    (hasAllowedExtension file.filename = true → file.contents.length = 0 →
      analyze_resume extractor gen file = ([], .error emptyFile)) ∧
    (hasAllowedExtension file.filename = true → file.contents.length > MAX_SIZE →
      analyze_resume extractor gen file = ([], .error fileTooLarge)) ∧
    (hasAllowedExtension file.filename = true → file.contents.length = MAX_SIZE →
      (analyze_resume extractor gen file).2 ≠ .error fileTooLarge) := by
  refine ⟨rfl, ?_, ?_, ?_, ?_⟩
  · intro h; simp [analyze_resume, h]
  · intro hext hlen; simp [analyze_resume, hext, hlen]
  · intro hext hsz
    have hne : file.contents.length ≠ 0 := by omega
    simp [analyze_resume, hext, hne, hsz]
  · intro hext hlen
    have hne : file.contents.length ≠ 0 := by rw [hlen]; decide
    have hsz : ¬ file.contents.length > MAX_SIZE := by omega
    cases hstep : extractStep extractor file with
    | error e =>
      have he := extractStep_error_eq extractor file e hstep
      subst he
      simp [analyze_resume, hext, hne, hsz, hstep]
      decide
    | ok text =>
      rw [analyze_valid extractor gen file text hext hne hsz hstep]
      cases hr : (retry_gemini_request gen text 3).2 with
      | ok r => simp [hr, Except.map]
      | error e =>
        have he := retryLoop_error_eq gen text 3 0 e hr
        subst he
        simp [hr, Except.map]
        decide

/-- Witness for C7: a 5,242,881-byte upload with a bad extension fails the
extension check first; the same bytes under `.txt` fail with `FileTooLarge`;
an exactly 5,242,880-byte `.txt` upload passes the size check. -/
theorem size_check_boundary_and_order_witness :
    analyze_resume (fun _ => .error ()) (fun _ => .failure)
        ⟨"big.exe".data, List.replicate 5242881 0⟩ = ([], .error invalidFileType) ∧
    analyze_resume (fun _ => .error ()) (fun _ => .failure)
        ⟨"big.txt".data, List.replicate 5242881 0⟩ = ([], .error fileTooLarge) ∧
    (analyze_resume (fun _ => .error ()) (fun _ => .failure)
        ⟨"ok.txt".data, List.replicate 5242880 104⟩).2 ≠ .error fileTooLarge :=
  ⟨(size_check_boundary_and_order (fun _ => .error ()) (fun _ => .failure)
      ⟨"big.exe".data, List.replicate 5242881 0⟩).2.1 (by decide),
   (size_check_boundary_and_order (fun _ => .error ()) (fun _ => .failure)
      ⟨"big.txt".data, List.replicate 5242881 0⟩).2.2.2.1 (by decide)
      (by rw [List.length_replicate]; decide),
   (size_check_boundary_and_order (fun _ => .error ()) (fun _ => .failure)
      ⟨"ok.txt".data, List.replicate 5242880 104⟩).2.2.2.2 (by decide)
      (by rw [List.length_replicate]; decide)⟩

/-- Claim C8, counterexample: a `.pdf` upload whose (abstract) extraction
returns the empty string still reaches the model — the prompt recorded by the
model call is built from the empty extracted text, so the non-emptiness
invariant does not hold on the PDF path. -/
theorem pdf_empty_extraction_reaches_model_counterexample :
    analyze_resume (fun _ => .ok []) (fun _ => .success "ok".data) ⟨"scan.pdf".data, [37]⟩ =
      ([.extract, .modelCall (buildPrompt [])], .ok ⟨"ok".data⟩) ∧
    buildPrompt [] = PROMPT_TEMPLATE :=
  ⟨rfl, by simp [buildPrompt]⟩

/-- Claim C8 (amended): on the non-PDF path the invariant does hold — whenever
the model is invoked, the prompt was built from the successfully decoded text,
which is non-empty because the upload passed the emptiness check and decoding
non-empty bytes yields non-empty text.  (On the PDF path the extractor's
output is used without any non-emptiness check.) -/
theorem non_pdf_extracted_text_nonempty
    (extractor : List Nat → Except Unit (List Char)) (gen : Nat → Outcome)
    (file : UploadFile) (p : List Char)
    (hnp : isPdf file.filename = false)
    (h : Event.modelCall p ∈ (analyze_resume extractor gen file).1) :
    ∃ text, decodeUtf8 file.contents = some text ∧ text ≠ [] ∧ p = buildPrompt text := by
  cases hext : hasAllowedExtension file.filename with
  | false => simp [analyze_resume, hext] at h
  | true =>
    by_cases hlen : file.contents.length = 0
    · simp [analyze_resume, hext, hlen] at h
    · by_cases hsz : file.contents.length > MAX_SIZE
      · simp [analyze_resume, hext, hlen, hsz] at h
      · cases hstep : extractStep extractor file with
        | error e => simp [analyze_resume, hext, hlen, hsz, hstep] at h
        | ok text =>
          have hdec : decodeUtf8 file.contents = some text := by
            unfold extractStep at hstep
            rw [hnp] at hstep
            simp only [Bool.false_eq_true, if_false] at hstep
            cases hd : decodeUtf8 file.contents with
            | none => rw [hd] at hstep; simp at hstep
            | some t => rw [hd] at hstep; simp at hstep; rw [hstep]
          refine ⟨text, hdec, ?_, ?_⟩
          · exact decodeUtf8_ne_nil file.contents text
              (fun hc => hlen (by simp [hc])) hdec
          · rw [analyze_valid extractor gen file text hext hlen hsz hstep] at h
            simp only [List.mem_cons] at h
            rcases h with h | h
            · simp at h
            · exact retryLoop_modelCall_mem gen text 3 0 p h

/-- Witness for C8 (amended) at a concrete `.txt` upload. -/
theorem non_pdf_extracted_text_nonempty_witness :
    ∃ text, decodeUtf8 [104, 105] = some text ∧ text ≠ [] ∧
      buildPrompt ['h', 'i'] = buildPrompt text :=
  non_pdf_extracted_text_nonempty (fun _ => .error ()) (fun _ => .success "ok".data)
    ⟨"a.txt".data, [104, 105]⟩ (buildPrompt ['h', 'i']) (by decide)
    (by
      have ht : (analyze_resume (fun _ => .error ()) (fun _ => .success "ok".data)
          ⟨"a.txt".data, [104, 105]⟩).1 =
          [.extract, .modelCall (buildPrompt ['h', 'i'])] := rfl
      rw [ht]; simp)

/-- Claim C9: when every attempt fails, the retry performs a backoff sleep
after each failed attempt including the last — sleeps of 1, 2 and 4 seconds,
7 seconds in total — before failing with `ServiceUnavailable`; and whenever
the retry succeeds, its trace ends with the successful model call, so no
sleep ever follows a success. -/
theorem backoff_after_every_failure_total_seven (gen : Nat → Outcome) (text : List Char) :
    ((∀ i, i < 3 → gen i = .failure) →
      retry_gemini_request gen text 3 =
        ([.modelCall (buildPrompt text), .sleep 1, .modelCall (buildPrompt text), .sleep 2,
          .modelCall (buildPrompt text), .sleep 4], .error serviceUnavailable) ∧
      totalSleep (retry_gemini_request gen text 3).1 = 7) ∧
    (∀ r, (retry_gemini_request gen text 3).2 = .ok r →
      ∃ l, (retry_gemini_request gen text 3).1 = l ++ [.modelCall (buildPrompt text)]) := by
  constructor
  · intro hfail
    have h3 := retry3_allFail gen text (hfail 0 (by norm_num)) (hfail 1 (by norm_num))
      (hfail 2 (by norm_num))
    rw [h3]
    exact ⟨rfl, by simp [totalSleep]⟩
  · intro r h
    exact retryLoop_ok_ends_modelCall gen text 3 0 r h

/-- Witness for C9: the all-fail half at an always-failing model, the
ends-with-a-model-call half at an immediately succeeding model. -/
theorem backoff_after_every_failure_total_seven_witness :
    (retry_gemini_request (fun _ => .failure) "hi".data 3 =
      ([.modelCall (buildPrompt "hi".data), .sleep 1, .modelCall (buildPrompt "hi".data),
        .sleep 2, .modelCall (buildPrompt "hi".data), .sleep 4], .error serviceUnavailable) ∧
      totalSleep (retry_gemini_request (fun _ => .failure) "hi".data 3).1 = 7) ∧
    (∃ l, (retry_gemini_request (fun _ => .success "ok".data) "hi".data 3).1 =
      l ++ [.modelCall (buildPrompt "hi".data)]) :=
  ⟨(backoff_after_every_failure_total_seven (fun _ => .failure) "hi".data).1
      (fun _ _ => rfl),
   (backoff_after_every_failure_total_seven (fun _ => .success "ok".data) "hi".data).2
      "ok".data rfl⟩

/-- Claim C10: if module-level startup completed (the credential was present
and truthy, otherwise a `RuntimeError` aborts the process), the health
endpoint's `api_ready` field is `true` — no reachable state of a running
process reports `api_ready = false`. -/
theorem startup_ok_implies_api_ready (env k : Option (List Char))
    (h : startup env = .ok k) : (health_check k).api_ready = true := by
  unfold startup at h
  cases ht : keyTruthy env with
  | false => rw [ht] at h; simp at h
  | true =>
    rw [ht] at h
    simp at h
    subst h
    simp [health_check, ht]

/-- Witness for C10 at a concrete present credential. -/
theorem startup_ok_implies_api_ready_witness :
    (health_check (some "secret".data)).api_ready = true :=
  startup_ok_implies_api_ready (some "secret".data) (some "secret".data) rfl

end Resumia
